import Mathlib

/-
Verification of the multi-agent learner core of `llm-marl-jax`
(src/marl/agents/learning.py and src/marl/agents/impala/builder.py).

Modelling conventions.
Scalars are rationals; a parameter tree (a JAX pytree of arrays) is
flattened to a fixed-length vector indexed by `Fin n`, so shape agreement
is tracked by the type.  The replica axis produced by `jax.pmap` is a
function out of `Fin R` (or `Fin (R + 1)` where the code assumes at least
one local device), and the agent axis produced by `jax.vmap` is a function
out of `Fin A`.  The network, the optimizer and the loss function are
injected dependencies of `MALearner` in the source, so here they are
explicit structure arguments.  The metrics dictionary returned by
`sgd_step` (loss aux merged with the `param_norm` and `param_updates_norm`
diagnostics) is not modelled: no claim refers to metric values.
-/

namespace Marl

/-- A flattened parameter (or gradient, or update) tree with `n` scalar
leaves. -/
def Vec (n : ℕ) : Type := Fin n → ℚ

instance (n : ℕ) : DecidableEq (Vec n) := by
  unfold Vec
  infer_instance

/-- Pointwise addition of two trees of identical shape
(`jax.tree_map` of addition). -/
def vadd {n : ℕ} (v w : Vec n) : Vec n := fun i => v i + w i

/-- Pointwise scaling of a tree by a scalar. -/
def vsmul {n : ℕ} (c : ℚ) (v : Vec n) : Vec n := fun i => c * v i

/-- `optax.apply_updates(params, updates)`: adds the update tree to the
parameter tree leaf by leaf. -/
def apply_updates {n : ℕ} (params updates : Vec n) : Vec n := vadd params updates

/-- `jax.lax.pmean` over the pmap axis: the elementwise mean of the
per-replica values. -/
def pmean {n R : ℕ} (g : Fin R → Vec n) : Vec n :=
  fun i => (Finset.univ.sum fun r => g r i) / (R : ℚ)

/-- `types.TrainingState`: per-agent model parameters and optimiser state.
The optimiser state type `O` is opaque to the learner. -/
structure TrainingState (n : ℕ) (O : Type) where
  params : Vec n
  opt_state : O
deriving DecidableEq

/-- `types.PopArtTrainingState`: `TrainingState` extended with the value
normalisation statistics `popart_state` (type `P`, opaque to the learner). -/
structure PopArtTrainingState (n : ℕ) (O P : Type) where
  params : Vec n
  opt_state : O
  popart_state : P
deriving DecidableEq

/-- An `optax.GradientTransformation` as used by the learner: `init` builds
the optimiser state from a parameter tree, `update` maps a gradient tree and
the optimiser state to an update tree and the new optimiser state. -/
structure Optimizer (n : ℕ) (O : Type) where
  init : Vec n → O
  update : Vec n → O → Vec n × O

/-- `types.RecurrentNetworks`, restricted to the two functions
`MALearner.make_initial_state` reads: `initial_state_fn` builds a recurrent
initial state from a key, `unroll_init_fn` builds parameters from a key and
a recurrent state.  `K` is the PRNG key type, `RS` the recurrent state
type. -/
structure RecurrentNetworks (n : ℕ) (K RS : Type) where
  initial_state_fn : K → RS
  unroll_init_fn : K → RS → Vec n

/-- Embedding of `make_initial_state` (learning.py lines 57-74): split the
key, build the recurrent initial state from the second half, build the
parameters from the first half, initialise the optimiser state from those
parameters; return the new `TrainingState` together with the advanced key.
`split` stands for `jax.random.split` (external PRNG numerics). -/
def make_initial_state {n : ℕ} {O K RS : Type} (network : RecurrentNetworks n K RS)
    (optimizer : Optimizer n O) (split : K → K × K) (key : K) :
    TrainingState n O × K :=
  let keys := split key
  let initial_state := network.initial_state_fn keys.2
  let initial_params := network.unroll_init_fn keys.1 initial_state
  let initial_opt_state := optimizer.init initial_params
  (⟨initial_params, initial_opt_state⟩, keys.1)

/-- Embedding of `make_initial_states` (learning.py lines 77-82): build one
`TrainingState` per agent, threading the advanced key from each agent into
the next.  Returns the list of per-agent states (agent 0 first, as appended
by the source loop) together with the final advanced key. -/
def make_initial_states {n : ℕ} {O K RS : Type} (network : RecurrentNetworks n K RS)
    (optimizer : Optimizer n O) (split : K → K × K) :
    (n_agents : ℕ) → K → List (TrainingState n O) × K
  | 0, key => ([], key)
  | m + 1, key =>
    let first := make_initial_state network optimizer split key
    let rest := make_initial_states network optimizer split m first.2
    (first.1 :: rest.1, rest.2)

/-- Embedding of `sgd_step` (learning.py lines 84-111) as executed under
`jax.pmap(jax.vmap(sgd_step), axis_name="data")` (line 121): replicas are
indexed by `Fin R`, agents by `Fin A`.  Each replica computes the gradient
of the loss at its own copy of the params on its own batch shard
(`gradFn p b` stands for `jax.grad(loss_fn, has_aux=True)` applied at
params `p` and sample `b`); `jax.lax.pmean` then averages the per-replica
gradients of each agent across all replicas, and only this averaged
gradient is passed to `optimizer.update`, whose update tree is added to
the params by `optax.apply_updates`. -/
def sgd_step {n R A : ℕ} {O B : Type} (optimizer : Optimizer n O)
    (gradFn : Vec n → B → Vec n)
    (states : Fin R → Fin A → TrainingState n O)
    (batches : Fin R → Fin A → B) :
    Fin R → Fin A → TrainingState n O :=
  fun r a =>
    let gradients := pmean fun r2 => gradFn (states r2 a).params (batches r2 a)
    let upd := optimizer.update gradients (states r a).opt_state
    ⟨apply_updates (states r a).params upd.1, upd.2⟩

/-- Modelled from the spec: `acme_utils.get_from_first_device` (the module
`acme.jax.utils` is not under src/) extracts replica 0's copy of a value
replicated along the device axis. -/
def get_from_first_device {R : ℕ} {S : Type} (c : Fin (R + 1) → S) : S := c 0

/-- Modelled from the spec: `acme_utils.replicate_in_all_devices` (the
module `acme.jax.utils` is not under src/) broadcasts one logical value
onto every replica. -/
def replicate_in_all_devices (R : ℕ) {S : Type} (s : S) : Fin (R + 1) → S :=
  fun _ => s

/-- Embedding of `MALearner.save` (learning.py lines 204-207): serialize
only the first replica of the combined state. -/
def MALearner.save {R : ℕ} {S : Type} (combined_states : Fin (R + 1) → S) : S :=
  get_from_first_device combined_states

/-- Embedding of `MALearner.restore` (learning.py lines 209-211):
re-broadcast the given canonical state to all replicas. -/
def MALearner.restore (R : ℕ) {S : Type} (state : S) : Fin (R + 1) → S :=
  replicate_in_all_devices R state

/-- Embedding of `MALearner.get_variables` (learning.py lines 198-202),
written as a function of the object state: it returns
`get_from_first_device` of the one-element list holding the stacked
per-agent params, and performs no assignment, so the combined state it
leaves behind is the one it was given.  The `names` argument is not read
by the body. -/
def MALearner.get_variables {n R A : ℕ} {O : Type}
    (combined_states : Fin (R + 1) → Fin A → TrainingState n O)
    (names : List String) :
    List (Fin A → Vec n) × (Fin (R + 1) → Fin A → TrainingState n O) :=
  ([get_from_first_device fun r => fun a => (combined_states r a).params],
    combined_states)

/-- Modelled from the spec: `ma_utils.select_idx` (marl/utils/experiment_utils
is not under src/) indexes the stacked per-agent state along the agent axis
by the given order, so entry `i` of the result is entry `order i` of the
input. -/
def select_idx {A : ℕ} {S : Type} (state : Fin A → S) (order : Fin A → Fin A) :
    Fin A → S :=
  fun i => state (order i)

/-- Embedding of `MALearner.step` (learning.py lines 156-168) as a function
of its fallible stages: pull the next element from the iterator, repack it
into `TrainingData`, then run `_step_on_data`.  The body contains no
try/except, so each stage is modelled in `Except` and its error value is
whatever the stage produced. -/
def MALearner.step {E D T S : Type} (next_iterator : Except E D)
    (repack : D → Except E T)
    (step_on_data : T → S → Except E S) (st : S) : Except E S :=
  match next_iterator with
  | Except.error e => Except.error e
  | Except.ok samples =>
    match repack samples with
    | Except.error e => Except.error e
    | Except.ok data => step_on_data data st

/-- Embedding of `MALearner._step_on_data` (learning.py lines 170-196),
restricted to its effect on the combined state and the step counter (the
timing, logging and metric extraction lines touch neither): run the pmapped
`sgd_step`, increment the counter, and, whenever the incremented count
satisfies the cadence check `counts % 1 == 0`, draw a random agent order,
extract the canonical state with `save`, permute it along the agent axis
with `select_idx`, and `restore` the permuted state.  `random_choice`
models `jax.random.choice(key, n_agents, (n_agents,), replace=False)` (from
the spec: a draw of the agent indices without replacement, hence a
permutation of `Fin A`). -/
def MALearner.step_on_data {n R A : ℕ} {O B K : Type} (optimizer : Optimizer n O)
    (gradFn : Vec n → B → Vec n)
    (random_choice : K → Equiv.Perm (Fin A)) (key : K)
    (samples : Fin (R + 1) → Fin A → B)
    (combined_states : Fin (R + 1) → Fin A → TrainingState n O)
    (learner_steps : ℕ) :
    (Fin (R + 1) → Fin A → TrainingState n O) × ℕ :=
  let new_combined := sgd_step optimizer gradFn combined_states samples
  let counts := learner_steps + 1
  let shuffled :=
    if counts % 1 == 0 then
      let selected_order := random_choice key
      let shuffle_state := MALearner.save new_combined
      let shuffle_state2 := select_idx shuffle_state fun i => selected_order i
      MALearner.restore R shuffle_state2
    else new_combined
  (shuffled, counts)

/-- The loss function of the PopArt learner, as seen through
`jax.grad(self._loss_fn, has_aux=True)` (learning.py lines 286-289): `grad`
is the gradient of the loss with respect to `params` only (its result has
the shape of the params tree; `popart_state` is a plain input, never
differentiated), and the auxiliary output is `(new_popart_state, metrics)`.
The loss itself is an external collaborator (built by
`loss_fn(network=..., popart_update_fn=popart.update_fn)`, whose module is
not under src/), so both components are abstract here.  The
`new_popart_state` component is produced by `popart.update_fn`, which is
constructed with the pmap axis name (`popart = popart(_PMAP_AXIS_NAME)` at
learning.py line 244, `axis_name=axis` at builder.py lines 106-122) and so
is a cross-replica collective: under pmap its value depends on every
replica's batch shard and is the same on every replica, which is why it
takes the whole replica-indexed batch family here.  The metrics component
is replica-local and not modelled (no claim refers to metric values). -/
structure PopArtLossGrad (n R : ℕ) (P B : Type) where
  grad : Vec n → P → B → Vec n
  aux_popart : Vec n → P → (Fin R → B) → P

/-- Embedding of the PopArt `sgd_step` (learning.py lines 279-309) as
executed under `jax.pmap(jax.vmap(sgd_step), axis_name="data")` (line 320):
the gradient and the auxiliary output `(new_popart_state, metrics)` come
from one call of the grad-with-aux function at this replica's params and
popart state; the gradients are averaged across replicas with
`jax.lax.pmean` before `optimizer.update`; the new state stores the
updated params, the new optimiser state, and, directly, the
`new_popart_state` from the auxiliary output — one popart update per
gradient step, with no separate normalisation pass. -/
def MALearnerPopArt.sgd_step {n R A : ℕ} {O P B : Type}
    (optimizer : Optimizer n O) (lossGrad : PopArtLossGrad n R P B)
    (states : Fin R → Fin A → PopArtTrainingState n O P)
    (batches : Fin R → Fin A → B) :
    Fin R → Fin A → PopArtTrainingState n O P :=
  fun r a =>
    let new_popart_state :=
      lossGrad.aux_popart (states r a).params (states r a).popart_state
        fun r2 => batches r2 a
    let gradients := pmean fun r2 =>
      lossGrad.grad (states r2 a).params (states r2 a).popart_state (batches r2 a)
    let upd := optimizer.update gradients (states r a).opt_state
    ⟨apply_updates (states r a).params upd.1, upd.2, new_popart_state⟩

/-
Model of the optax transformations used by the builder
(src/marl/agents/impala/builder.py lines 44-54 and 94-104).  optax is an
external collaborator; the spec treats the optimizer internals as an opaque
pluggable transformation, so the square root appearing in the global norm
and in the RMS scaling is carried as an abstract scalar function `sqrt`.
-/

/-- An optax gradient transformation with state type `S`, as a pair of an
`init` function on parameter trees and an `update` function from a gradient
tree and a state to an update tree and a new state. -/
structure GradientTransformation (n : ℕ) (S : Type) where
  init : Vec n → S
  update : Vec n → S → Vec n × S

/-- `optax.chain` of two transformations: states are paired, and the update
tree of the first stage is fed into the second stage. -/
def chain {n : ℕ} {S1 S2 : Type} (t1 : GradientTransformation n S1)
    (t2 : GradientTransformation n S2) : GradientTransformation n (S1 × S2) :=
  ⟨fun p => (t1.init p, t2.init p),
   fun g s =>
     let u1 := t1.update g s.1
     let u2 := t2.update u1.1 s.2
     (u2.1, (u1.2, u2.2))⟩

/-- `optax.identity`: the stateless transformation that passes updates
through unchanged. -/
def identity_transformation (n : ℕ) : GradientTransformation n Unit :=
  ⟨fun _ => (), fun g s => (g, s)⟩

/-- `optax.global_norm`: the euclidean norm of a tree, with the square
root abstract. -/
def global_norm {n : ℕ} (sqrt : ℚ → ℚ) (v : Vec n) : ℚ :=
  sqrt (Finset.univ.sum fun i => v i * v i)

/-- `optax.clip_by_global_norm(max_norm)`: stateless; updates are returned
unchanged when their global norm is below `max_norm` and otherwise rescaled
to have global norm `max_norm`. -/
def clip_by_global_norm {n : ℕ} (sqrt : ℚ → ℚ) (max_norm : ℚ) :
    GradientTransformation n Unit :=
  ⟨fun _ => (),
   fun g s =>
     let g_norm := global_norm sqrt g
     (if g_norm < max_norm then g else fun i => g i / g_norm * max_norm, s)⟩

/-- `optax.scale_by_rms(decay, eps, initial_scale)`: the state is the
second-moment accumulator `nu`, initialised to `initial_scale` at every
leaf; each update decays `nu` towards the squared gradient and divides the
gradient by the square root of `nu + eps`. -/
def scale_by_rms {n : ℕ} (sqrt : ℚ → ℚ) (decay eps initial_scale : ℚ) :
    GradientTransformation n (Vec n) :=
  ⟨fun _ => fun _ => initial_scale,
   fun g nu =>
     let new_nu : Vec n := fun i => decay * nu i + (1 - decay) * (g i * g i)
     (fun i => g i / sqrt (new_nu i + eps), new_nu)⟩

/-- `optax.scale(-learning_rate)`, the final stage of `optax.rmsprop`. -/
def scale_by_neg_lr {n : ℕ} (learning_rate : ℚ) : GradientTransformation n Unit :=
  ⟨fun _ => (), fun g s => (vsmul (-learning_rate) g, s)⟩

/-- `optax.trace(decay)` (non-nesterov): the state is the momentum trace,
initialised to zero; each update folds the gradient into the trace and
emits the trace. -/
def trace {n : ℕ} (decay : ℚ) : GradientTransformation n (Vec n) :=
  ⟨fun _ => fun _ => 0,
   fun g tr =>
     let new_trace : Vec n := fun i => g i + decay * tr i
     (new_trace, new_trace)⟩

/-- A gradient transformation with its state type packaged, so that
optimizers whose state shape depends on configuration (momentum present or
absent) have a single type. -/
structure AnyTransformation (n : ℕ) where
  S : Type
  t : GradientTransformation n S

/-- `optax.chain` on packaged transformations. -/
def chainAny {n : ℕ} (t1 t2 : AnyTransformation n) : AnyTransformation n :=
  ⟨t1.S × t2.S, chain t1.t t2.t⟩

/-- `optax.rmsprop(learning_rate, decay, eps, initial_scale, momentum)`
(non-centered): `scale_by_rms` then `scale(-learning_rate)`, followed by
`trace(momentum)` when `momentum` is not `None` and by the identity
transformation when it is. -/
def rmsprop {n : ℕ} (sqrt : ℚ → ℚ) (learning_rate decay eps initial_scale : ℚ) :
    Option ℚ → AnyTransformation n
  | Option.some momentum =>
    ⟨_, chain (chain (scale_by_rms sqrt decay eps initial_scale)
          (scale_by_neg_lr learning_rate)) (trace momentum)⟩
  | Option.none =>
    ⟨_, chain (chain (scale_by_rms sqrt decay eps initial_scale)
          (scale_by_neg_lr learning_rate)) (identity_transformation n)⟩

/-- Modelled from the spec: the configuration record `IMPALAConfig`
(marl/agents/impala/config.py is not under src/), restricted to the fields
the optimizer construction in `make_learner` reads. -/
structure IMPALAConfig where
  max_gradient_norm : ℚ
  learning_rate : ℚ
  rmsprop_decay : ℚ
  rmsprop_eps : ℚ
  rmsprop_init : ℚ
  rmsprop_momentum : ℚ

/-- Embedding of the optimizer construction in
`IMPALABuilder.make_learner` (builder.py lines 44-54) and
`PopArtIMPALABuilder.make_learner` (lines 94-104, identical text):
`optax.chain` of `clip_by_global_norm(max_gradient_norm)` and `rmsprop`
with the configured hyperparameters, where the momentum argument is
`rmsprop_momentum` if that value is nonzero and `None` otherwise. -/
def make_learner_optimizer (n : ℕ) (sqrt : ℚ → ℚ) (config : IMPALAConfig) :
    AnyTransformation n :=
  chainAny ⟨Unit, clip_by_global_norm sqrt config.max_gradient_norm⟩
    (rmsprop sqrt config.learning_rate config.rmsprop_decay config.rmsprop_eps
      config.rmsprop_init
      (if config.rmsprop_momentum ≠ 0 then Option.some config.rmsprop_momentum
       else Option.none))

/-- Run a gradient transformation from a given state over a list of
gradients, collecting the emitted update trees in order. -/
def runFrom {n : ℕ} {S : Type} (t : GradientTransformation n S) :
    S → List (Vec n) → List (Vec n)
  | _, [] => []
  | s, g :: gs =>
    let u := t.update g s
    u.1 :: runFrom t u.2 gs

/-- The update sequence of a packaged transformation: initialise the state
from the parameters, then run over the gradient list. -/
def updateSequence {n : ℕ} (t : AnyTransformation n) (params : Vec n)
    (grads : List (Vec n)) : List (Vec n) :=
  runFrom t.t (t.t.init params) grads

/-- Claim C1: for every training state and batch, the per-replica gradient
is averaged (not summed) across all replicas before the optimizer update:
with replica count 2 and per-replica gradients `g1` and `g2`, `sgd_step`
applies, on every replica and for every agent, exactly the optimizer update
computed from `(g1 + g2) / 2`, and this cross-replica mean is the argument
of `optimizer.update`. -/
theorem sgd_step_averages_gradients_over_replicas {n A : ℕ} {O B : Type}
    (optimizer : Optimizer n O) (gradFn : Vec n → B → Vec n)
    (s : Fin A → TrainingState n O) (b1 b2 : Fin A → B) :
    ∀ (r : Fin 2) (a : Fin A),
      sgd_step optimizer gradFn (fun _ => s)
          (fun r2 => if r2 = 0 then b1 else b2) r a =
        let g1 := gradFn (s a).params (b1 a)
        let g2 := gradFn (s a).params (b2 a)
        let upd := optimizer.update (vsmul (1 / 2) (vadd g1 g2)) (s a).opt_state
        ⟨apply_updates (s a).params upd.1, upd.2⟩ := by
  intro r a
  have hg : (pmean fun r2 : Fin 2 =>
        gradFn (s a).params ((if r2 = 0 then b1 else b2) a)) =
      vsmul (1 / 2)
        (vadd (gradFn (s a).params (b1 a)) (gradFn (s a).params (b2 a))) := by
    funext i
    simp [pmean, vsmul, vadd, Fin.sum_univ_two]
    ring
  simp only [sgd_step, hg]

/-- Claim C2: the checkpoint round-trip `restore(save(state))` followed by
`save()` again yields the original `save()` result; `save` extracts the
first replica and `restore` re-broadcasts, and their composition is the
identity on the canonical single-replica snapshot. -/
theorem save_restore_roundtrip {R : ℕ} {S : Type} :
    (∀ combined_states : Fin (R + 1) → S,
        MALearner.save (MALearner.restore R (MALearner.save combined_states)) =
          MALearner.save combined_states) ∧
    (∀ state : S, MALearner.save (MALearner.restore R state) = state) :=
  ⟨fun _ => rfl, fun _ => rfl⟩

/-- Claim C3: replica consistency.  Immediately after a `restore`, all
replicas hold the same copy; and the pmapped `sgd_step` (plain and PopArt)
preserves replica equality: if every replica holds the same copy of the
stacked training state before the step, then after the cross-replica
gradient reduction and optimizer update every replica again holds the same
copy, for any per-replica batch shards. -/
theorem replica_consistency {n R A : ℕ} {O P B : Type}
    (optimizer : Optimizer n O) (gradFn : Vec n → B → Vec n)
    (lossGrad : PopArtLossGrad n (R + 1) P B) :
    (∀ (state : Fin A → TrainingState n O) (r r2 : Fin (R + 1)),
        MALearner.restore R state r = MALearner.restore R state r2) ∧
    (∀ (states : Fin (R + 1) → Fin A → TrainingState n O)
        (batches : Fin (R + 1) → Fin A → B),
        (∀ r r2, states r = states r2) →
        ∀ r r2, sgd_step optimizer gradFn states batches r =
          sgd_step optimizer gradFn states batches r2) ∧
    (∀ (states : Fin (R + 1) → Fin A → PopArtTrainingState n O P)
        (batches : Fin (R + 1) → Fin A → B),
        (∀ r r2, states r = states r2) →
        ∀ r r2, MALearnerPopArt.sgd_step optimizer lossGrad states batches r =
          MALearnerPopArt.sgd_step optimizer lossGrad states batches r2) := by
  refine ⟨fun state r r2 => rfl, ?_, ?_⟩
  · intro states batches h r r2
    funext a
    simp only [sgd_step]
    rw [h r r2]
  · intro states batches h r r2
    funext a
    simp only [MALearnerPopArt.sgd_step]
    rw [h r r2]

/-- Witness for claim C3 at a concrete instance: one agent, two replicas,
identity-like optimizer and gradient, equal replicas before the step. -/
theorem replica_consistency_witness :
    sgd_step (n := 1) (R := 1) (A := 1) (O := Unit) (B := Unit)
        ⟨fun _ => (), fun g s => (g, s)⟩ (fun p _ => p)
        (fun _ _ => ⟨fun _ => 1, ()⟩) (fun _ _ => ()) 0 =
      sgd_step (n := 1) (R := 1) (A := 1) (O := Unit) (B := Unit)
        ⟨fun _ => (), fun g s => (g, s)⟩ (fun p _ => p)
        (fun _ _ => ⟨fun _ => 1, ()⟩) (fun _ _ => ()) 1 :=
  (replica_consistency (P := Unit)
      ⟨fun _ => (), fun g s => (g, s)⟩ (fun p _ => p)
      ⟨fun p _ _ => p, fun _ pa _ => pa⟩).2.1
    (fun _ _ => ⟨fun _ => 1, ()⟩) (fun _ _ => ()) (fun _ _ => rfl) 0 1

/-- Helper: permuting a `Fin A`-indexed family with `select_idx` along a
permutation leaves the multiset of entries unchanged. -/
theorem select_idx_perm_multiset {A : ℕ} {S : Type} (f : Fin A → S)
    (e : Equiv.Perm (Fin A)) :
    Multiset.map (select_idx f fun i => e i) Finset.univ.val =
      Multiset.map f Finset.univ.val := by
  have h1 : select_idx f (fun i => e i) = f ∘ ⇑e := rfl
  rw [h1, ← Multiset.map_map, Multiset.map_univ_val_equiv]

/-- Helper: `make_initial_states` produces one state per agent. -/
theorem make_initial_states_length {n : ℕ} {O K RS : Type}
    (network : RecurrentNetworks n K RS) (optimizer : Optimizer n O)
    (split : K → K × K) :
    ∀ (m : ℕ) (key : K),
      (make_initial_states network optimizer split m key).1.length = m := by
  intro m
  induction m with
  | zero => intro key; rfl
  | succ m ih =>
    intro key
    simp only [make_initial_states, List.length_cons]
    rw [ih]

/-- Helper: every state produced by `make_initial_states` has its
`opt_state` equal to `optimizer.init` of its own `params`. -/
theorem make_initial_states_opt_init {n : ℕ} {O K RS : Type}
    (network : RecurrentNetworks n K RS) (optimizer : Optimizer n O)
    (split : K → K × K) :
    ∀ (m : ℕ) (key : K),
      (make_initial_states network optimizer split m key).1.Forall
        (fun s => s.opt_state = optimizer.init s.params) := by
  intro m
  induction m with
  | zero => intro key; trivial
  | succ m ih =>
    intro key
    simp only [make_initial_states, List.forall_cons]
    exact ⟨rfl, ih _⟩

/-- Claim C4: in every operation producing a new `TrainingState` — state
initialization, the batched update step, and the agent-axis shuffle — each
agent's `opt_state` is exactly the optimizer state obtained by initializing
or updating the optimizer with that same agent's params tree: the initial
states pair `optimizer.init` of their own params; `sgd_step` pairs, at each
agent index, the optimizer update of that agent's own (averaged) gradient
and optimiser state with that agent's own params; and `select_idx` moves
whole `TrainingState` records, never splitting params from opt_state. -/
theorem opt_state_paired_with_own_params {n R A : ℕ} {O B K RS : Type}
    (network : RecurrentNetworks n K RS) (optimizer : Optimizer n O)
    (split : K → K × K) (gradFn : Vec n → B → Vec n) :
    (∀ (m : ℕ) (key : K),
      (make_initial_states network optimizer split m key).1.Forall
        (fun s => s.opt_state = optimizer.init s.params)) ∧
    (∀ (states : Fin R → Fin A → TrainingState n O)
        (batches : Fin R → Fin A → B) (r : Fin R) (a : Fin A),
      (sgd_step optimizer gradFn states batches r a).opt_state =
        (optimizer.update
          (pmean fun r2 => gradFn (states r2 a).params (batches r2 a))
          (states r a).opt_state).2 ∧
      (sgd_step optimizer gradFn states batches r a).params =
        apply_updates (states r a).params
          (optimizer.update
            (pmean fun r2 => gradFn (states r2 a).params (batches r2 a))
            (states r a).opt_state).1) ∧
    (∀ (state : Fin A → TrainingState n O) (order : Fin A → Fin A) (a : Fin A),
      select_idx state order a = state (order a)) :=
  ⟨make_initial_states_opt_init network optimizer split,
   fun _ _ _ _ => ⟨rfl, rfl⟩,
   fun _ _ _ => rfl⟩

/-- Claim C5: the builder constructs the optimizer as a chain of
clip-by-global-norm at the configured threshold followed by RMSProp; when
the configured `rmsprop_momentum` is exactly zero the momentum argument
passed is `None` (not `0`), so the resulting update sequence equals that of
an RMSProp optimizer with momentum explicitly disabled; for any nonzero
configured momentum, that value is passed. -/
theorem make_learner_momentum_toggle {n : ℕ} (sqrt : ℚ → ℚ)
    (config : IMPALAConfig) :
    (config.rmsprop_momentum = 0 →
      make_learner_optimizer n sqrt config =
        chainAny ⟨Unit, clip_by_global_norm sqrt config.max_gradient_norm⟩
          (rmsprop sqrt config.learning_rate config.rmsprop_decay
            config.rmsprop_eps config.rmsprop_init Option.none) ∧
      ∀ (params : Vec n) (grads : List (Vec n)),
        updateSequence (make_learner_optimizer n sqrt config) params grads =
          updateSequence
            (chainAny ⟨Unit, clip_by_global_norm sqrt config.max_gradient_norm⟩
              (rmsprop sqrt config.learning_rate config.rmsprop_decay
                config.rmsprop_eps config.rmsprop_init Option.none))
            params grads) ∧
    (config.rmsprop_momentum ≠ 0 →
      make_learner_optimizer n sqrt config =
        chainAny ⟨Unit, clip_by_global_norm sqrt config.max_gradient_norm⟩
          (rmsprop sqrt config.learning_rate config.rmsprop_decay
            config.rmsprop_eps config.rmsprop_init
            (Option.some config.rmsprop_momentum))) := by
  constructor
  · intro h
    have h1 : make_learner_optimizer n sqrt config =
        chainAny ⟨Unit, clip_by_global_norm sqrt config.max_gradient_norm⟩
          (rmsprop sqrt config.learning_rate config.rmsprop_decay
            config.rmsprop_eps config.rmsprop_init Option.none) := by
      unfold make_learner_optimizer
      rw [if_neg (by simp [h])]
    exact ⟨h1, fun params grads => by rw [h1]⟩
  · intro h
    unfold make_learner_optimizer
    rw [if_pos h]

/-- Witness for claim C5 at concrete configurations: momentum configured to
0 yields the momentum-disabled update sequence, and momentum configured to
1 yields RMSProp with momentum `some 1`. -/
theorem make_learner_momentum_toggle_witness :
    (updateSequence (make_learner_optimizer 1 (fun q => q) ⟨1, 1, 1, 1, 1, 0⟩)
        (fun _ => 0) [] =
      updateSequence
        (chainAny ⟨Unit, clip_by_global_norm (fun q => q) 1⟩
          (rmsprop (fun q => q) 1 1 1 1 Option.none)) (fun _ => 0) []) ∧
    (make_learner_optimizer 1 (fun q => q) ⟨1, 1, 1, 1, 1, 1⟩ =
      chainAny ⟨Unit, clip_by_global_norm (fun q => q) 1⟩
        (rmsprop (fun q => q) 1 1 1 1 (Option.some 1))) :=
  ⟨((make_learner_momentum_toggle (fun q => q) ⟨1, 1, 1, 1, 1, 0⟩).1 rfl).2
      (fun _ => 0) [],
   (make_learner_momentum_toggle (fun q => q) ⟨1, 1, 1, 1, 1, 1⟩).2 one_ne_zero⟩

/-- Claim C6: on every single `step()` the cadence check fires (the modulo-1
check holds for every counter value), so after incrementing the step
counter `_step_on_data` draws a random permutation of the agent indices,
extracts the canonical state via `save`, permutes it along the agent axis
with `select_idx`, and restores (re-broadcasts) the permuted state; and the
multiset of per-agent states is unchanged by this shuffle. -/
theorem step_on_data_shuffles_every_step {n R A : ℕ} {O B K : Type}
    (optimizer : Optimizer n O) (gradFn : Vec n → B → Vec n)
    (random_choice : K → Equiv.Perm (Fin A)) (key : K)
    (samples : Fin (R + 1) → Fin A → B)
    (combined_states : Fin (R + 1) → Fin A → TrainingState n O)
    (learner_steps : ℕ) :
    (MALearner.step_on_data optimizer gradFn random_choice key samples
        combined_states learner_steps =
      (MALearner.restore R
        (select_idx
          (MALearner.save (sgd_step optimizer gradFn combined_states samples))
          fun i => random_choice key i),
       learner_steps + 1)) ∧
    (Multiset.map
        (select_idx
          (MALearner.save (sgd_step optimizer gradFn combined_states samples))
          fun i => random_choice key i)
        Finset.univ.val =
      Multiset.map
        (MALearner.save (sgd_step optimizer gradFn combined_states samples))
        Finset.univ.val) := by
  constructor
  · simp [MALearner.step_on_data, Nat.mod_one]
  · exact select_idx_perm_multiset _ (random_choice key)

/-- Claim C7: the state initializer is deterministic — equal seeds give
bit-identical lists of `n_agents` training states and equal advanced seeds;
for each agent a sub-seed is derived from the previous agent's advanced
key, and each agent's optimizer state is `optimizer.init` of that agent's
own initial params. -/
theorem make_initial_states_deterministic {n : ℕ} {O K RS : Type}
    (network : RecurrentNetworks n K RS) (optimizer : Optimizer n O)
    (split : K → K × K) (n_agents : ℕ) (key1 key2 : K) (h : key1 = key2) :
    make_initial_states network optimizer split n_agents key1 =
      make_initial_states network optimizer split n_agents key2 ∧
    (make_initial_states network optimizer split n_agents key1).1.length =
      n_agents ∧
    (make_initial_states network optimizer split n_agents key1).1.Forall
      (fun s => s.opt_state = optimizer.init s.params) := by
  subst h
  exact ⟨rfl, make_initial_states_length network optimizer split n_agents key1,
    make_initial_states_opt_init network optimizer split n_agents key1⟩

/-- Witness for claim C7 at a concrete instance: natural-number keys, a
concrete split function, two agents, equal seeds. -/
theorem make_initial_states_deterministic_witness :
    (make_initial_states (n := 1) (O := Unit) (K := ℕ)
        ⟨fun k => k, fun _ _ => fun _ => 0⟩ ⟨fun _ => (), fun g s => (g, s)⟩
        (fun k => (k + 1, 2 * k)) 2 5 =
      make_initial_states ⟨fun k => k, fun _ _ => fun _ => 0⟩
        ⟨fun _ => (), fun g s => (g, s)⟩ (fun k => (k + 1, 2 * k)) 2 5) ∧
    (make_initial_states (n := 1) (O := Unit) (K := ℕ)
        ⟨fun k => k, fun _ _ => fun _ => 0⟩ ⟨fun _ => (), fun g s => (g, s)⟩
        (fun k => (k + 1, 2 * k)) 2 5).1.length = 2 ∧
    (make_initial_states (n := 1) (O := Unit) (K := ℕ)
        ⟨fun k => k, fun _ _ => fun _ => 0⟩ ⟨fun _ => (), fun g s => (g, s)⟩
        (fun k => (k + 1, 2 * k)) 2 5).1.Forall
      (fun s => s.opt_state = ()) :=
  make_initial_states_deterministic ⟨fun k => k, fun _ _ => fun _ => 0⟩
    ⟨fun _ => (), fun g s => (g, s)⟩ (fun k => (k + 1, 2 * k)) 2 5 5 rfl

/-- Claim C8: `step()` catches no exceptions: an error raised while pulling
the next batch from the iterator (including exhaustion) is returned
unmodified; an error raised while repacking into `TrainingData` is returned
unmodified; and when both stages succeed the result is exactly that of
`_step_on_data`, so any failure there also propagates unmodified.  In every
error case the result carries only the error — there is no retry, fallback
or partial-result value, and no replacement state is produced, so the
caller's state is left as it was. -/
theorem step_propagates_errors {E D T S : Type}
    (repack : D → Except E T) (step_on_data : T → S → Except E S) (st : S) :
    (∀ e : E, MALearner.step (Except.error e) repack step_on_data st =
        Except.error e) ∧
    (∀ (d : D) (e : E), repack d = Except.error e →
        MALearner.step (Except.ok d) repack step_on_data st = Except.error e) ∧
    (∀ (d : D) (t : T), repack d = Except.ok t →
        MALearner.step (Except.ok d) repack step_on_data st =
          step_on_data t st) := by
  refine ⟨fun e => rfl, ?_, ?_⟩
  · intro d e h
    simp [MALearner.step, h]
  · intro d t h
    simp [MALearner.step, h]

/-- Witness for claim C8 at concrete instances of the three propagation
cases: iterator failure, repack failure, and success passing through to
`_step_on_data`. -/
theorem step_propagates_errors_witness :
    (MALearner.step (E := ℕ) (D := ℕ) (T := ℕ) (S := ℕ) (Except.error 7)
        (fun d => Except.ok d) (fun _ s => Except.ok s) 3 = Except.error 7) ∧
    (MALearner.step (E := ℕ) (D := ℕ) (T := ℕ) (S := ℕ) (Except.ok 4)
        (fun _ => Except.error 9) (fun _ s => Except.ok s) 3 =
      Except.error 9) ∧
    (MALearner.step (E := ℕ) (D := ℕ) (T := ℕ) (S := ℕ) (Except.ok 4)
        (fun d => Except.ok d) (fun _ s => Except.ok s) 3 = Except.ok 3) :=
  ⟨(step_propagates_errors (fun d => Except.ok d) (fun _ s => Except.ok s) 3).1 7,
   (step_propagates_errors (fun _ => Except.error 9) (fun _ s => Except.ok s)
      3).2.1 4 9 rfl,
   (step_propagates_errors (fun d => Except.ok d) (fun _ s => Except.ok s)
      3).2.2 4 4 rfl⟩

/-- Claim C9: in the PopArt `sgd_step`, the updated value-normalisation
statistics are the first component of the loss function's auxiliary output
from the same gradient computation and are stored directly as the
`popart_state` of the new state — exactly one popart update per gradient
step, with no separate normalisation pass — while the optimizer update is
computed from the replica-averaged gradient taken with respect to `params`
only (the gradient has the shape of the params tree; `popart_state` enters
the loss only as a plain input). -/
theorem popart_state_updated_from_loss_aux {n R A : ℕ} {O P B : Type}
    (optimizer : Optimizer n O) (lossGrad : PopArtLossGrad n R P B)
    (states : Fin R → Fin A → PopArtTrainingState n O P)
    (batches : Fin R → Fin A → B) (r : Fin R) (a : Fin A) :
    (MALearnerPopArt.sgd_step optimizer lossGrad states batches r a).popart_state =
      (lossGrad.aux_popart (states r a).params (states r a).popart_state
        fun r2 => batches r2 a) ∧
    (MALearnerPopArt.sgd_step optimizer lossGrad states batches r a).params =
      apply_updates (states r a).params
        (optimizer.update
          (pmean fun r2 =>
            lossGrad.grad (states r2 a).params (states r2 a).popart_state
              (batches r2 a))
          (states r a).opt_state).1 ∧
    (MALearnerPopArt.sgd_step optimizer lossGrad states batches r a).opt_state =
      (optimizer.update
        (pmean fun r2 =>
          lossGrad.grad (states r2 a).params (states r2 a).popart_state
            (batches r2 a))
        (states r a).opt_state).2 :=
  ⟨rfl, rfl, rfl⟩

/-- Claim C10: `get_variables(names)` ignores its `names` argument
entirely: for every two name sequences the results coincide, and the result
is the one-element list holding the first replica's copy of the stacked
per-agent params, with the learner's combined state left unchanged. -/
theorem get_variables_ignores_names {n R A : ℕ} {O : Type}
    (combined_states : Fin (R + 1) → Fin A → TrainingState n O)
    (names1 names2 : List String) :
    MALearner.get_variables combined_states names1 =
      MALearner.get_variables combined_states names2 ∧
    MALearner.get_variables combined_states names1 =
      ([fun a => (combined_states 0 a).params], combined_states) :=
  ⟨rfl, rfl⟩

end Marl
